/-
Verification of the two-stage retrieval pipeline of the UFG_NLP_rag_chatbot
repository (src/rag_chatbot/config.py, vector_retriever.py, rag_core.py).

The pipeline is shallowly embedded: external collaborators (the embedding
oracle together with the Chroma vector index, and the CrossEncoder re-ranker)
are modelled as explicit oracle functions returning `Except String`, so that
a raised Python exception is an `.error` value and normal return is `.ok`.
Python's stable `list.sort` is modelled by `List.insertionSort`, which is a
stable sort for a total transitive relation, hence extensionally equal to
CPython's Timsort on the relations used here.  Real-valued scores and
distances are modelled by `Int`, which keeps every definition executable and
decidable while preserving the linear-order structure the code relies on.
-/
import Mathlib

/-- config.py: SEARCH_K_RAW = 20 (Stage 1 breadth). -/
def SEARCH_K_RAW : Nat := 20

/-- config.py: SEARCH_K_FINAL = 3 (final result count). -/
def SEARCH_K_FINAL : Nat := 3

/-- config.py: VECTOR_DB_DIR = os.path.join(BASE_DIR, "vector_db"); the
BASE_DIR prefix is environment dependent and irrelevant to the claims, so the
path is modelled by its fixed final component. -/
def VECTOR_DB_DIR : String := "vector_db"

/-- A langchain Document as consumed by the pipeline: the retrieval code reads
only page_content; source and page are the provenance metadata fields. -/
structure Document where
  page_content : String
  source : String
  page : Nat
deriving DecidableEq, Repr

/-- Outcome of a call into external Python code: `.ok` is a normal return,
`.error` is a raised exception carrying its message. -/
abbrev Exc (α : Type) := Except String α

/-- Stage 1 oracle: `vectordb.similarity_search_with_score(query, k)` (the
embedding oracle and the Chroma index together), returning scored documents
(distance: smaller is better) or raising. -/
abbrev SearchOracle := String → Nat → Exc (List (Document × Int))

/-- Stage 2 oracle: `reranker.predict(pairs)` over (query, passage) pairs,
returning one relevance score per pair (larger is better) or raising. -/
abbrev RerankOracle := List (String × String) → Exc (List Int)

/-- vector_retriever.py line 152 and rag_core.py line 124:
pairs = [[query, doc.page_content] for doc, score in results_with_scores]. -/
def buildPairs (query : String) (cands : List (Document × Int)) :
    List (String × String) :=
  cands.map fun ds => (query, ds.1.page_content)

/-- Python `sort(key=lambda x: x[1], reverse=True)` as a sort relation:
a may stay before b iff a's score is at least b's score. -/
def byScoreDesc (a b : (Document × Int) × Int) : Prop := b.2 ≤ a.2

/-- Python `sort(key=lambda x: x[1])` / `sorted(..., key=lambda x: x[1])` as a
sort relation: a may stay before b iff a's distance is at most b's. -/
def byDistAsc (a b : Document × Int) : Prop := a.2 ≤ b.2

instance : DecidableRel byScoreDesc :=
  fun a b => inferInstanceAs (Decidable (b.2 ≤ a.2))

instance : DecidableRel byDistAsc :=
  fun a b => inferInstanceAs (Decidable (a.2 ≤ b.2))

instance : IsTotal ((Document × Int) × Int) byScoreDesc :=
  ⟨fun a b => le_total b.2 a.2⟩

instance : IsTrans ((Document × Int) × Int) byScoreDesc :=
  ⟨fun _ _ _ h1 h2 => le_trans h2 h1⟩

instance : IsTotal (Document × Int) byDistAsc :=
  ⟨fun a b => le_total a.2 b.2⟩

instance : IsTrans (Document × Int) byDistAsc :=
  ⟨fun _ _ _ h1 h2 => le_trans h1 h2⟩

/-- VectorRetriever.retrieve_context_with_scores (vector_retriever.py,
lines 131-176).  Stage 1 runs outside the try block, so a search failure
propagates; an empty candidate list returns [].  Inside the try block the
(query, content) pairs are built, scored in one predict call, zipped back
positionally, stably sorted by descending score, truncated to SEARCH_K_FINAL
and reshaped to (document, relevance_score); any exception in the try block
is caught and an empty list is returned. -/
def retrieve_context_with_scores (search : SearchOracle)
    (predict : RerankOracle) (query : String) : Exc (List (Document × Int)) :=
  match search query SEARCH_K_RAW with
  | .error e => .error e
  | .ok results_with_scores =>
    if results_with_scores.isEmpty then .ok []
    else
      match predict (buildPairs query results_with_scores) with
      | .error _ => .ok []
      | .ok rerank_scores =>
        let reranked_results := results_with_scores.zip rerank_scores
        let sorted := reranked_results.insertionSort byScoreDesc
        let top_k_results := sorted.take SEARCH_K_FINAL
        .ok (top_k_results.map fun x => (x.1.1, x.2))

/-- RagProcessor.retrieve (rag_core.py, lines 106-153), modelled as the
context list it stores in the graph state.  Stage 1 and the pair building run
outside the try block; on rerank success the candidates are zipped with the
scores, stably sorted by descending score and the top SEARCH_K_FINAL
documents are returned; on a rerank exception the fallback returns the
Stage 1 candidates sorted by ascending distance, truncated to
SEARCH_K_FINAL. -/
def RagProcessor.retrieve (search : SearchOracle) (predict : RerankOracle)
    (query : String) : Exc (List Document) :=
  match search query SEARCH_K_RAW with
  | .error e => .error e
  | .ok results_with_scores =>
    if results_with_scores.isEmpty then .ok []
    else
      match predict (buildPairs query results_with_scores) with
      | .ok rerank_scores =>
        let reranked_results := results_with_scores.zip rerank_scores
        let sorted := reranked_results.insertionSort byScoreDesc
        .ok ((sorted.take SEARCH_K_FINAL).map fun x => x.1.1)
      | .error _ =>
        let sorted_by_vector_score := results_with_scores.insertionSort byDistAsc
        .ok ((sorted_by_vector_score.take SEARCH_K_FINAL).map Prod.fst)

/-- VectorRetriever.retrieve_context_vector_search_only (vector_retriever.py,
lines 179-212).  The index is queried with k = SEARCH_K_FINAL inside a try
block; the results are sorted by ascending distance and returned without
slicing; any exception (including a Stage 1 failure) is caught and an empty
list is returned. -/
def retrieve_context_vector_search_only (search : SearchOracle)
    (query : String) : Exc (List (Document × Int)) :=
  match search query SEARCH_K_FINAL with
  | .error _ => .ok []
  | .ok results_with_scores =>
    if results_with_scores.isEmpty then .ok []
    else .ok (results_with_scores.insertionSort byDistAsc)

/-- Environment observed by the constructors: whether the vector-db path
exists, and the outcome of each external model/index load. -/
structure InitEnv where
  pathExists : Bool
  loadLLM : Exc Unit
  loadEmbeddings : Exc Unit
  loadChroma : Exc Unit
  loadReranker : Exc Unit

/-- Error raised by a constructor, distinguishing the explicit
FileNotFoundError from exceptions propagated out of the loaders. -/
inductive InitError where
  | fileNotFound (path : String)
  | other (msg : String)
deriving DecidableEq, Repr

/-- VectorRetriever.__init__ (vector_retriever.py, lines 89-120): checks
os.path.exists(config.VECTOR_DB_DIR) first and raises FileNotFoundError
before loading anything; then loads embeddings, Chroma and the CrossEncoder,
re-raising any loader exception. -/
def VectorRetriever.init (env : InitEnv) : Except InitError Unit :=
  if !env.pathExists then .error (.fileNotFound VECTOR_DB_DIR)
  else
    match env.loadEmbeddings with
    | .error e => .error (.other e)
    | .ok _ =>
      match env.loadChroma with
      | .error e => .error (.other e)
      | .ok _ =>
        match env.loadReranker with
        | .error e => .error (.other e)
        | .ok _ => .ok ()

/-- RagProcessor.__init__ (rag_core.py, lines 51-87): loads the LLM, the
embedding model, Chroma and the CrossEncoder in order (graph building is
pure); it performs no existence check on the vector-db path. -/
def RagProcessor.init (env : InitEnv) : Except InitError Unit :=
  match env.loadLLM with
  | .error e => .error (.other e)
  | .ok _ =>
    match env.loadEmbeddings with
    | .error e => .error (.other e)
    | .ok _ =>
      match env.loadChroma with
      | .error e => .error (.other e)
      | .ok _ =>
        match env.loadReranker with
        | .error e => .error (.other e)
        | .ok _ => .ok ()

/-- Concrete document used by the witnesses. -/
def docA : Document := ⟨"alpha", "s1", 1⟩

/-- Concrete document used by the witnesses. -/
def docB : Document := ⟨"beta", "s2", 2⟩

/-- Concrete healthy search oracle: two indexed documents, distances 5 and 2,
clipped to the requested k as a real k-NN search is. -/
def wSearch : SearchOracle := fun _ k => .ok ([(docA, 5), (docB, 2)].take k)

/-- Concrete healthy rerank oracle: scores 1 and 7 for the two pairs. -/
def wPredict : RerankOracle := fun _ => .ok [1, 7]

/-- Concrete failing rerank oracle: every predict call raises. -/
def wPredictFail : RerankOracle := fun _ => .error "reranker down"

/-- Concrete failing search oracle: every index search raises. -/
def wSearchFail : SearchOracle := fun _ _ => .error "index down"

/-- Concrete empty-index search oracle: every search returns no candidates. -/
def wSearchEmpty : SearchOracle := fun _ _ => .ok []

/-- C2 counterexample: the recall-only mode wraps the Stage 1 search in a try
block (vector_retriever.py lines 189-212); a hard Stage 1 failure is caught
and silently converted into the empty result `.ok []` instead of being
propagated, refuting the claim for the recall-only mode. -/
theorem C2_counterexample :
    (∀ q k, wSearchFail q k = .error "index down") ∧
    retrieve_context_vector_search_only wSearchFail "q" = .ok [] :=
  ⟨fun _ _ => rfl, rfl⟩

/-- C2 (amended): a Stage 1 failure (embedding oracle or index) is propagated
unchanged by both full-pipeline implementations, whose search call sits
outside any try block; the recall-only mode however catches it and returns an
empty list. -/
theorem C2_amended_stage1_failure (search : SearchOracle)
    (predict : RerankOracle) (query : String) (e : String)
    (hfail : ∀ q k, search q k = .error e) :
    retrieve_context_with_scores search predict query = .error e ∧
    RagProcessor.retrieve search predict query = .error e ∧
    retrieve_context_vector_search_only search query = .ok [] := by
  refine ⟨?_, ?_, ?_⟩
  · unfold retrieve_context_with_scores
    rw [hfail]
  · unfold RagProcessor.retrieve
    rw [hfail]
  · unfold retrieve_context_vector_search_only
    rw [hfail]

/-- C2 witness: the amended statement instantiated at the concrete failing
search oracle. -/
theorem C2_witness :
    retrieve_context_with_scores wSearchFail wPredict "q" = .error "index down" ∧
    RagProcessor.retrieve wSearchFail wPredict "q" = .error "index down" ∧
    retrieve_context_vector_search_only wSearchFail "q" = .ok [] :=
  C2_amended_stage1_failure wSearchFail wPredict "q" "index down" fun _ _ => rfl

/-- C3: every successful result of the full pipeline
(retrieve_context_with_scores) is in non-increasing order of relevance score
on adjacent positions, on the nominal path because the zipped list is stably
sorted with byScoreDesc before truncation and reshaping, and trivially on the
empty and caught-exception paths. -/
theorem C3_full_pipeline_sorted (search : SearchOracle) (predict : RerankOracle)
    (query : String) (l : List (Document × Int))
    (h : retrieve_context_with_scores search predict query = .ok l) :
    l.Chain' (fun a b => b.2 ≤ a.2) := by
  unfold retrieve_context_with_scores at h
  cases hs : search query SEARCH_K_RAW with
  | error e =>
    rw [hs] at h
    cases h
  | ok cands =>
    rw [hs] at h
    dsimp only at h
    by_cases hemp : cands.isEmpty = true
    · rw [if_pos hemp] at h
      simp only [Except.ok.injEq] at h
      subst h
      exact List.chain'_nil
    · rw [if_neg hemp] at h
      cases hp : predict (buildPairs query cands) with
      | error e =>
        rw [hp] at h
        simp only [Except.ok.injEq] at h
        subst h
        exact List.chain'_nil
      | ok scores =>
        rw [hp] at h
        simp only [Except.ok.injEq] at h
        subst h
        exact List.Pairwise.chain'
          (List.Pairwise.map _ (fun _ _ hab => hab)
            (List.Pairwise.sublist (List.take_sublist _ _)
              (List.sorted_insertionSort byScoreDesc _)))

/-- C3 witness: the concrete healthy oracles give result
[(docB, 7), (docA, 1)], and the theorem yields its descending-score chain. -/
theorem C3_witness :
    List.Chain' (fun a b : Document × Int => b.2 ≤ a.2) [(docB, 7), (docA, 1)] :=
  C3_full_pipeline_sorted wSearch wPredict "q" [(docB, 7), (docA, 1)] rfl

/-- C7: the recall-only mode depends only on the index search at
k = SEARCH_K_FINAL (it never fetches SEARCH_K_RAW candidates), and every
successful result is in non-decreasing order of vector distance on adjacent
positions, because the code re-sorts the returned candidates with
byDistAsc. -/
theorem C7_recall_only_k_final_sorted (search1 search2 : SearchOracle)
    (query : String) (l : List (Document × Int))
    (hagree : search1 query SEARCH_K_FINAL = search2 query SEARCH_K_FINAL)
    (h : retrieve_context_vector_search_only search1 query = .ok l) :
    retrieve_context_vector_search_only search1 query =
      retrieve_context_vector_search_only search2 query ∧
    l.Chain' (fun a b => a.2 ≤ b.2) := by
  constructor
  · unfold retrieve_context_vector_search_only
    rw [hagree]
  · unfold retrieve_context_vector_search_only at h
    cases hs : search1 query SEARCH_K_FINAL with
    | error e =>
      rw [hs] at h
      simp only [Except.ok.injEq] at h
      subst h
      exact List.chain'_nil
    | ok res =>
      rw [hs] at h
      dsimp only at h
      by_cases hemp : res.isEmpty = true
      · rw [if_pos hemp] at h
        simp only [Except.ok.injEq] at h
        subst h
        exact List.chain'_nil
      · rw [if_neg hemp] at h
        simp only [Except.ok.injEq] at h
        subst h
        exact List.Pairwise.chain' (List.sorted_insertionSort byDistAsc _)

/-- C7 witness: a second oracle differing from wSearch away from
k = SEARCH_K_FINAL gives the same recall-only result, which is ascending. -/
theorem C7_witness :
    retrieve_context_vector_search_only wSearch "q" =
      retrieve_context_vector_search_only
        (fun q k => if k = SEARCH_K_FINAL then wSearch q k else .error "other k") "q" ∧
    List.Chain' (fun a b : Document × Int => a.2 ≤ b.2) [(docB, 2), (docA, 5)] :=
  C7_recall_only_k_final_sorted wSearch
    (fun q k => if k = SEARCH_K_FINAL then wSearch q k else .error "other k")
    "q" [(docB, 2), (docA, 5)] rfl rfl

/-- C8: when Stage 1 returns no candidates (empty index or no match), both
full-pipeline implementations return the empty list as a normal value, not an
exception. -/
theorem C8_empty_index_ok (search : SearchOracle) (predict : RerankOracle)
    (query : String) (h : search query SEARCH_K_RAW = .ok []) :
    retrieve_context_with_scores search predict query = .ok [] ∧
    RagProcessor.retrieve search predict query = .ok [] := by
  constructor
  · unfold retrieve_context_with_scores
    rw [h]
    rfl
  · unfold RagProcessor.retrieve
    rw [h]
    rfl

/-- C8 witness: the empty-index oracle gives empty results from both
implementations. -/
theorem C8_witness :
    retrieve_context_with_scores wSearchEmpty wPredict "q" = .ok [] ∧
    RagProcessor.retrieve wSearchEmpty wPredict "q" = .ok [] :=
  C8_empty_index_ok wSearchEmpty wPredict "q" rfl

/-- C1 counterexample: with a non-empty Stage 1 candidate set and a failing
cross-encoder, VectorRetriever.retrieve_context_with_scores returns the empty
list (its except branch, vector_retriever.py lines 174-176), not the
non-empty Stage 1 candidates re-sorted by ascending distance that the claim
requires. -/
theorem C1_counterexample :
    wSearch "q" SEARCH_K_RAW = .ok [(docA, 5), (docB, 2)] ∧
    [(docA, (5 : Int)), (docB, 2)] ≠ [] ∧
    wPredictFail (buildPairs "q" [(docA, 5), (docB, 2)]) = .error "reranker down" ∧
    retrieve_context_with_scores wSearch wPredictFail "q" = .ok [] :=
  ⟨rfl, by simp, rfl, rfl⟩

/-- C1 (amended): on a cross-encoder failure with a non-empty Stage 1
candidate set, neither full-pipeline implementation raises;
RagProcessor.retrieve returns the non-empty Stage 1 candidates re-sorted by
ascending distance and truncated to SEARCH_K_FINAL (rag_core.py fallback),
while VectorRetriever.retrieve_context_with_scores instead returns the empty
list. -/
theorem C1_amended_fallback (search : SearchOracle) (predict : RerankOracle)
    (query : String) (cands : List (Document × Int)) (e : String)
    (hs : search query SEARCH_K_RAW = .ok cands) (hne : cands ≠ [])
    (hp : predict (buildPairs query cands) = .error e) :
    RagProcessor.retrieve search predict query =
      .ok (((cands.insertionSort byDistAsc).take SEARCH_K_FINAL).map Prod.fst) ∧
    ((cands.insertionSort byDistAsc).take SEARCH_K_FINAL).map Prod.fst ≠ [] ∧
    retrieve_context_with_scores search predict query = .ok [] := by
  have hemp : ¬cands.isEmpty = true := by
    cases cands with
    | nil => exact absurd rfl hne
    | cons a t => simp
  refine ⟨?_, ?_, ?_⟩
  · unfold RagProcessor.retrieve
    rw [hs]
    dsimp only
    rw [if_neg hemp, hp]
  · apply List.ne_nil_of_length_pos
    have hlen : 0 < cands.length := List.length_pos.mpr hne
    simp only [List.length_map, List.length_take, List.length_insertionSort,
      SEARCH_K_FINAL]
    omega
  · unfold retrieve_context_with_scores
    rw [hs]
    dsimp only
    rw [if_neg hemp, hp]

/-- C1 witness: the amended statement at the concrete oracles; the fallback
list is [docB, docA] (ascending distances 2, 5). -/
theorem C1_witness :
    RagProcessor.retrieve wSearch wPredictFail "q" = .ok [docB, docA] ∧
    retrieve_context_with_scores wSearch wPredictFail "q" = .ok [] := by
  have h := C1_amended_fallback wSearch wPredictFail "q" [(docA, 5), (docB, 2)]
    "reranker down" rfl (by simp) rfl
  refine ⟨?_, h.2.2⟩
  rw [h.1]
  rfl

/-- C9 counterexample: RagProcessor.__init__ (rag_core.py lines 51-87)
performs no existence check on the vector-db path; with the path absent and
every loader succeeding (Chroma creates a missing persist directory rather
than raising), the constructor returns normally, so initialization does not
fail fast on this misconfiguration. -/
theorem C9_counterexample :
    InitEnv.pathExists ⟨false, .ok (), .ok (), .ok (), .ok ()⟩ = false ∧
    RagProcessor.init ⟨false, .ok (), .ok (), .ok (), .ok ()⟩ = .ok () :=
  ⟨rfl, rfl⟩

/-- C9 (amended): when the configured vector-db path does not exist,
VectorRetriever.__init__ raises FileNotFoundError before loading any model,
whatever the loaders would do, so no query is ever accepted; but
RagProcessor.__init__ performs no such check and returns normally whenever
its four loaders succeed. -/
theorem C9_amended_init_check (env : InitEnv) (henv : env.pathExists = false) :
    VectorRetriever.init env = .error (.fileNotFound VECTOR_DB_DIR) ∧
    (env.loadLLM = .ok () → env.loadEmbeddings = .ok () →
      env.loadChroma = .ok () → env.loadReranker = .ok () →
      RagProcessor.init env = .ok ()) := by
  constructor
  · unfold VectorRetriever.init
    rw [henv]
    rfl
  · intro h1 h2 h3 h4
    unfold RagProcessor.init
    rw [h1, h2, h3, h4]

/-- C9 witness: the amended statement at a concrete environment with a
missing path and healthy loaders. -/
theorem C9_witness :
    VectorRetriever.init ⟨false, .ok (), .ok (), .ok (), .ok ()⟩ =
      .error (.fileNotFound VECTOR_DB_DIR) ∧
    RagProcessor.init ⟨false, .ok (), .ok (), .ok (), .ok ()⟩ = .ok () := by
  have h := C9_amended_init_check ⟨false, .ok (), .ok (), .ok (), .ok ()⟩ rfl
  exact ⟨h.1, h.2 rfl rfl rfl rfl⟩

/-- C4: the full pipeline returns at most SEARCH_K_FINAL and at most
SEARCH_K_RAW results in both implementations; the recall-only mode returns at
most SEARCH_K_FINAL results provided the index honours the k-NN contract of
returning at most k hits, since the code returns its sorted Stage 1 list
without slicing. -/
theorem C4_size_bounds (search : SearchOracle) (predict : RerankOracle)
    (query : String) (l1 : List (Document × Int)) (l2 : List Document)
    (l3 : List (Document × Int))
    (hb : ∀ q k l, search q k = .ok l → l.length ≤ k)
    (h1 : retrieve_context_with_scores search predict query = .ok l1)
    (h2 : RagProcessor.retrieve search predict query = .ok l2)
    (h3 : retrieve_context_vector_search_only search query = .ok l3) :
    l1.length ≤ SEARCH_K_FINAL ∧ l1.length ≤ SEARCH_K_RAW ∧
    l2.length ≤ SEARCH_K_FINAL ∧ l3.length ≤ SEARCH_K_FINAL := by
  have hfinal_raw : SEARCH_K_FINAL ≤ SEARCH_K_RAW := by decide
  have hb1 : l1.length ≤ SEARCH_K_FINAL := by
    unfold retrieve_context_with_scores at h1
    cases hs : search query SEARCH_K_RAW with
    | error e => rw [hs] at h1; cases h1
    | ok cands =>
      rw [hs] at h1
      dsimp only at h1
      by_cases hemp : cands.isEmpty = true
      · rw [if_pos hemp] at h1
        simp only [Except.ok.injEq] at h1
        subst h1
        simp
      · rw [if_neg hemp] at h1
        cases hp : predict (buildPairs query cands) with
        | error e =>
          rw [hp] at h1
          simp only [Except.ok.injEq] at h1
          subst h1
          simp
        | ok scores =>
          rw [hp] at h1
          simp only [Except.ok.injEq] at h1
          subst h1
          simp only [List.length_map, List.length_take]
          omega
  have hb2 : l2.length ≤ SEARCH_K_FINAL := by
    unfold RagProcessor.retrieve at h2
    cases hs : search query SEARCH_K_RAW with
    | error e => rw [hs] at h2; cases h2
    | ok cands =>
      rw [hs] at h2
      dsimp only at h2
      by_cases hemp : cands.isEmpty = true
      · rw [if_pos hemp] at h2
        simp only [Except.ok.injEq] at h2
        subst h2
        simp
      · rw [if_neg hemp] at h2
        cases hp : predict (buildPairs query cands) with
        | error e =>
          rw [hp] at h2
          simp only [Except.ok.injEq] at h2
          subst h2
          simp only [List.length_map, List.length_take]
          omega
        | ok scores =>
          rw [hp] at h2
          simp only [Except.ok.injEq] at h2
          subst h2
          simp only [List.length_map, List.length_take]
          omega
  have hb3 : l3.length ≤ SEARCH_K_FINAL := by
    unfold retrieve_context_vector_search_only at h3
    cases hs : search query SEARCH_K_FINAL with
    | error e =>
      rw [hs] at h3
      simp only [Except.ok.injEq] at h3
      subst h3
      simp
    | ok res =>
      rw [hs] at h3
      dsimp only at h3
      by_cases hemp : res.isEmpty = true
      · rw [if_pos hemp] at h3
        simp only [Except.ok.injEq] at h3
        subst h3
        simp
      · rw [if_neg hemp] at h3
        simp only [Except.ok.injEq] at h3
        subst h3
        rw [List.length_insertionSort]
        exact hb query SEARCH_K_FINAL res hs
  exact ⟨hb1, le_trans hb1 hfinal_raw, hb2, hb3⟩

/-- C4 witness: the size bounds at the concrete healthy oracles, whose search
clips its answer to the requested k. -/
theorem C4_witness :
    ([(docB, (7 : Int)), (docA, 1)].length ≤ SEARCH_K_FINAL ∧
      [(docB, (7 : Int)), (docA, 1)].length ≤ SEARCH_K_RAW ∧
      [docB, docA].length ≤ SEARCH_K_FINAL ∧
      [(docB, (2 : Int)), (docA, 5)].length ≤ SEARCH_K_FINAL) :=
  C4_size_bounds wSearch wPredict "q" [(docB, 7), (docA, 1)] [docB, docA]
    [(docB, 2), (docA, 5)]
    (by
      intro q k l h
      simp only [wSearch, Except.ok.injEq] at h
      subst h
      simp [List.length_take])
    rfl rfl rfl

/-- C5: on every code path of both full-pipeline implementations, each
returned passage already appeared in the Stage 1 candidate list of the same
call; Stage 2 only zips, sorts, truncates and reshapes that list and performs
no further index lookup. -/
theorem C5_subset_of_stage1 (search : SearchOracle) (predict : RerankOracle)
    (query : String) (cands : List (Document × Int))
    (l1 : List (Document × Int)) (l2 : List Document)
    (hs : search query SEARCH_K_RAW = .ok cands)
    (h1 : retrieve_context_with_scores search predict query = .ok l1)
    (h2 : RagProcessor.retrieve search predict query = .ok l2) :
    (∀ p ∈ l1, p.1 ∈ cands.map Prod.fst) ∧
    (∀ d ∈ l2, d ∈ cands.map Prod.fst) := by
  constructor
  · intro p hpl
    unfold retrieve_context_with_scores at h1
    rw [hs] at h1
    dsimp only at h1
    by_cases hemp : cands.isEmpty = true
    · rw [if_pos hemp] at h1
      simp only [Except.ok.injEq] at h1
      subst h1
      cases hpl
    · rw [if_neg hemp] at h1
      cases hpr : predict (buildPairs query cands) with
      | error e =>
        rw [hpr] at h1
        simp only [Except.ok.injEq] at h1
        subst h1
        cases hpl
      | ok scores =>
        rw [hpr] at h1
        simp only [Except.ok.injEq] at h1
        subst h1
        obtain ⟨x, hx, hfx⟩ := List.mem_map.mp hpl
        have hx3 : x ∈ cands.zip scores :=
          (List.mem_insertionSort byScoreDesc).mp (List.mem_of_mem_take hx)
        have hx4 : x.1 ∈ cands := (List.of_mem_zip hx3).1
        subst hfx
        exact List.mem_map.mpr ⟨x.1, hx4, rfl⟩
  · intro d hdl
    unfold RagProcessor.retrieve at h2
    rw [hs] at h2
    dsimp only at h2
    by_cases hemp : cands.isEmpty = true
    · rw [if_pos hemp] at h2
      simp only [Except.ok.injEq] at h2
      subst h2
      cases hdl
    · rw [if_neg hemp] at h2
      cases hpr : predict (buildPairs query cands) with
      | error e =>
        rw [hpr] at h2
        simp only [Except.ok.injEq] at h2
        subst h2
        obtain ⟨x, hx, hfx⟩ := List.mem_map.mp hdl
        have hx3 : x ∈ cands :=
          (List.mem_insertionSort byDistAsc).mp (List.mem_of_mem_take hx)
        subst hfx
        exact List.mem_map.mpr ⟨x, hx3, rfl⟩
      | ok scores =>
        rw [hpr] at h2
        simp only [Except.ok.injEq] at h2
        subst h2
        obtain ⟨x, hx, hfx⟩ := List.mem_map.mp hdl
        have hx3 : x ∈ cands.zip scores :=
          (List.mem_insertionSort byScoreDesc).mp (List.mem_of_mem_take hx)
        have hx4 : x.1 ∈ cands := (List.of_mem_zip hx3).1
        subst hfx
        exact List.mem_map.mpr ⟨x.1, hx4, rfl⟩

/-- C5 witness: the subset property at the concrete healthy oracles. -/
theorem C5_witness :
    (∀ p ∈ [(docB, (7 : Int)), (docA, 1)],
      p.1 ∈ [(docA, (5 : Int)), (docB, 2)].map Prod.fst) ∧
    (∀ d ∈ [docB, docA], d ∈ [(docA, (5 : Int)), (docB, 2)].map Prod.fst) :=
  C5_subset_of_stage1 wSearch wPredict "q" [(docA, 5), (docB, 2)]
    [(docB, 7), (docA, 1)] [docB, docA] rfl rfl rfl

/-- C6: on a successful Stage 2 run, exactly one (query, content) pair is
built per Stage 1 candidate, in candidate order; the scores of the single
batched predict call are attached positionally, so every returned
(passage, relevance_score) is the i-th candidate's document paired with the
cross-encoder's i-th score, verbatim and with the Stage 1 distance not
blended in. -/
theorem C6_positional_scoring (search : SearchOracle) (predict : RerankOracle)
    (query : String) (cands : List (Document × Int)) (scores : List Int)
    (l : List (Document × Int))
    (hs : search query SEARCH_K_RAW = .ok cands)
    (hp : predict (buildPairs query cands) = .ok scores)
    (hlen : scores.length = cands.length)
    (h : retrieve_context_with_scores search predict query = .ok l) :
    (buildPairs query cands).length = cands.length ∧
    (∀ i : Nat, (buildPairs query cands)[i]? =
      (cands[i]?).map fun c => (query, c.1.page_content)) ∧
    (cands.zip scores).length = cands.length ∧
    ∀ p ∈ l, ∃ i : Nat,
      (cands[i]?).map Prod.fst = some p.1 ∧ scores[i]? = some p.2 := by
  refine ⟨by simp [buildPairs], fun i => by simp [buildPairs],
    by simp [List.length_zip, hlen], ?_⟩
  intro p hpl
  unfold retrieve_context_with_scores at h
  rw [hs] at h
  dsimp only at h
  by_cases hemp : cands.isEmpty = true
  · rw [if_pos hemp] at h
    simp only [Except.ok.injEq] at h
    subst h
    cases hpl
  · rw [if_neg hemp, hp] at h
    simp only [Except.ok.injEq] at h
    subst h
    obtain ⟨x, hx, hfx⟩ := List.mem_map.mp hpl
    have hx3 : x ∈ cands.zip scores :=
      (List.mem_insertionSort byScoreDesc).mp (List.mem_of_mem_take hx)
    obtain ⟨i, hi⟩ := List.mem_iff_getElem?.mp hx3
    obtain ⟨hc, hsc⟩ := List.getElem?_zip_eq_some.mp hi
    subst hfx
    refine ⟨i, ?_, ?_⟩
    · rw [hc]
      rfl
    · exact hsc

/-- C6 witness: positional scoring at the concrete healthy oracles, whose
two candidates receive scores 1 and 7 in order. -/
theorem C6_witness :
    (buildPairs "q" [(docA, 5), (docB, 2)]).length =
      [(docA, (5 : Int)), (docB, 2)].length ∧
    (∀ i : Nat, (buildPairs "q" [(docA, 5), (docB, 2)])[i]? =
      ([(docA, (5 : Int)), (docB, 2)][i]?).map fun c => ("q", c.1.page_content)) ∧
    ([(docA, (5 : Int)), (docB, 2)].zip [(1 : Int), 7]).length =
      [(docA, (5 : Int)), (docB, 2)].length ∧
    ∀ p ∈ [(docB, (7 : Int)), (docA, 1)], ∃ i : Nat,
      ([(docA, (5 : Int)), (docB, 2)][i]?).map Prod.fst = some p.1 ∧
      [(1 : Int), 7][i]? = some p.2 :=
  C6_positional_scoring wSearch wPredict "q" [(docA, 5), (docB, 2)] [1, 7]
    [(docB, 7), (docA, 1)] rfl rfl rfl rfl

/-- C10: whenever the cross-encoder call succeeds, the document list stored
by RagProcessor.retrieve equals, in order, the documents of the result of
VectorRetriever.retrieve_context_with_scores: on the nominal path the two
independently written implementations of the full pipeline agree. -/
theorem C10_refinement_nominal (search : SearchOracle) (predict : RerankOracle)
    (query : String) (cands : List (Document × Int)) (scores : List Int)
    (hs : search query SEARCH_K_RAW = .ok cands)
    (hp : predict (buildPairs query cands) = .ok scores) :
    RagProcessor.retrieve search predict query =
      Except.map (List.map Prod.fst)
        (retrieve_context_with_scores search predict query) := by
  unfold RagProcessor.retrieve retrieve_context_with_scores
  rw [hs]
  dsimp only
  by_cases hemp : cands.isEmpty = true
  · rw [if_pos hemp, if_pos hemp]
    rfl
  · rw [if_neg hemp, if_neg hemp, hp]
    dsimp only
    simp only [Except.map, List.map_map]
    rfl

/-- C10 witness: the two implementations agree at the concrete healthy
oracles. -/
theorem C10_witness :
    RagProcessor.retrieve wSearch wPredict "q" =
      Except.map (List.map Prod.fst)
        (retrieve_context_with_scores wSearch wPredict "q") :=
  C10_refinement_nominal wSearch wPredict "q" [(docA, 5), (docB, 2)] [1, 7]
    rfl rfl
